import Mathlib

/-!
# Verification of the Guestbook Service (`src/app.py`)

A shallow embedding of the Flask guestbook application: the message store
(one MySQL table `messages(id, message, created_at)`), schema
initialization (`init_db`), and the three HTTP handlers (`index` for
`GET /`, `submit` for `POST /submit`, `health` for `GET /health`).

Store-side failures are modelled by a fault parameter naming which of the
handler's store calls (cursor acquisition, execute, fetchall, commit)
raises an exception; the Python `try/except` structure is mirrored by the
branch taken for each possible fault position.  Server-assigned values
(`AUTO_INCREMENT` id, `CURRENT_TIMESTAMP`) are modelled by counters in the
store state; the timestamp clock increases at every insert, the
"normal clock behavior" regime in which `created_at` is strictly
increasing with insertion order.
-/

namespace Guestbook

/-- A row of the `messages` table:
`id INT AUTO_INCREMENT PRIMARY KEY, message TEXT NOT NULL,
created_at TIMESTAMP DEFAULT CURRENT_TIMESTAMP`. -/
structure Row where
  id : Nat
  message : String
  createdAt : Nat
deriving Repr, DecidableEq

/-- The column names of the `messages` table created by `init_db`. -/
def messagesCols : List String := ["id", "message", "created_at"]

/-- The store state: the `messages` table (absent, or present with its
column list), its rows in insertion order, and the server-side counters
that assign `id` (AUTO_INCREMENT) and `created_at` (CURRENT_TIMESTAMP). -/
structure DB where
  tableCols : Option (List String)
  rows : List Row
  nextId : Nat
  clock : Nat
deriving Repr, DecidableEq

/-- A fresh store: no `messages` table, no rows; MySQL AUTO_INCREMENT
starts at 1. -/
def emptyDB : DB := { tableCols := none, rows := [], nextId := 1, clock := 0 }

/-- A fault injected into a handler's store calls: either every store call
succeeds, or the `n`-th store call made by the handler raises an
exception. -/
inductive Fault where
  | ok
  | atStep (n : Nat)
deriving Repr, DecidableEq

/-- Does fault `f` make the `n`-th store call of the handler raise? -/
def Fault.fails (f : Fault) (n : Nat) : Bool :=
  match f with
  | .ok => false
  | .atStep m => m == n

/-- Does fault `f` strike one of the first `bound` store calls of the
handler, i.e. does a store error actually occur during the handler? -/
def Fault.hits (f : Fault) (bound : Nat) : Bool :=
  match f with
  | .ok => false
  | .atStep m => m < bound

/-- The statement `INSERT INTO messages (message) VALUES (%s)` followed by `commit`:
appends one row with server-assigned `id` (the AUTO_INCREMENT counter) and
`created_at` (the current clock), and advances both counters. -/
def sqlInsert (db : DB) (msg : String) : DB :=
  { db with
    rows := db.rows ++ [⟨db.nextId, msg, db.clock⟩]
    nextId := db.nextId + 1
    clock := db.clock + 1 }

/-- The `ORDER BY created_at DESC` comparison: `a` precedes `b` when `a`'s
timestamp is at least `b`'s. -/
def createdDesc (a b : Row) : Prop := b.createdAt ≤ a.createdAt

instance : DecidableRel createdDesc :=
  fun a b => inferInstanceAs (Decidable (b.createdAt ≤ a.createdAt))

instance : IsTotal Row createdDesc :=
  ⟨fun a b => (Nat.le_total a.createdAt b.createdAt).symm⟩

instance : IsTrans Row createdDesc :=
  ⟨fun _ _ _ hab hbc => Nat.le_trans hbc hab⟩

/-- The rows produced by
`SELECT message FROM messages ORDER BY created_at DESC LIMIT 50`
before the `message` projection: sort by `created_at` descending (a stable
sort, matching the store-defined tie-break "typically insertion order"),
then apply `LIMIT 50`. -/
def selectedRows (db : DB) : List Row :=
  (db.rows.insertionSort createdDesc).take 50

/-- The query `SELECT message FROM messages ORDER BY created_at DESC LIMIT 50`:
the `message` column of the selected rows, as returned by `fetchall`. -/
def sqlSelectRecent (db : DB) : List String :=
  (selectedRows db).map Row.message

/-- The observable outcome of one handler invocation: HTTP status, response
body, resulting store state, whether the handler acquired a cursor, whether
it closed (released) that cursor, and whether it printed an error to the
process log. -/
structure Outcome (β : Type) where
  status : Nat
  body : β
  db : DB
  cursorAcquired : Bool
  cursorClosed : Bool
  logged : Bool
deriving Repr, DecidableEq

/-- Handler for `GET /` (`index` in `app.py`).  Store calls, in order:
step 0 `mysql.connection.cursor()`, step 1 `cur.execute(SELECT ...)`,
step 2 `cur.fetchall()`; then `cur.close()` and the page render.  Any
exception lands in the `except` branch, which logs the error and renders
the page with an empty message list, still returning HTTP 200. -/
def index (db : DB) (f : Fault) : Outcome (List String) :=
  if f.fails 0 then
    { status := 200, body := [], db := db
      cursorAcquired := false, cursorClosed := false, logged := true }
  else if f.fails 1 then
    { status := 200, body := [], db := db
      cursorAcquired := true, cursorClosed := false, logged := true }
  else if f.fails 2 then
    { status := 200, body := [], db := db
      cursorAcquired := true, cursorClosed := false, logged := true }
  else
    { status := 200, body := sqlSelectRecent db, db := db
      cursorAcquired := true, cursorClosed := true, logged := false }

/-- The request body of `POST /submit`: a JSON object (string fields), a
form-encoded body, or a request declaring a JSON content type whose body
fails to parse (`request.json` raises). -/
inductive ReqBody where
  | jsonBody (fields : List (String × String))
  | formBody (fields : List (String × String))
  | badJson
deriving Repr, DecidableEq

/-- Field lookup `request.json.get(k)` / `request.form.get(k)`: the value of field `k`,
or `none` when the field is absent. -/
def getField (fs : List (String × String)) (k : String) : Option String :=
  fs.lookup k

/-- Body `{'message': m, 'status': 'success'}` — the HTTP 200 body of a
successful submit. -/
def submitSuccessJson (m : String) : List (String × String) :=
  [("message", m), ("status", "success")]

/-- Body `{'error': 'Message is required'}` — the HTTP 400 body for a missing
or empty message. -/
def submitMissingJson : List (String × String) :=
  [("error", "Message is required")]

/-- Body `{'error': 'Failed to submit message'}` — the generic HTTP 500 body of
the submit handler's `except` branch. -/
def submitFailJson : List (String × String) :=
  [("error", "Failed to submit message")]

/-- The common tail of the submit handler once `new_message` has been
extracted: the falsy check (`if not new_message`) returns 400 without
touching the store; otherwise store calls step 0 `cursor()`, step 1
`cur.execute(INSERT ...)`, step 2 `commit()` run, then `cur.close()` and
the 200 response; any exception is logged and answered with the generic
500 body (an uncommitted insert is rolled back, leaving the store
unchanged). -/
def submitWithMsg (db : DB) (msg : Option String) (f : Fault) :
    Outcome (List (String × String)) :=
  match msg with
  | none =>
    { status := 400, body := submitMissingJson, db := db
      cursorAcquired := false, cursorClosed := false, logged := false }
  | some m =>
    if m = "" then
      { status := 400, body := submitMissingJson, db := db
        cursorAcquired := false, cursorClosed := false, logged := false }
    else if f.fails 0 then
      { status := 500, body := submitFailJson, db := db
        cursorAcquired := false, cursorClosed := false, logged := true }
    else if f.fails 1 then
      { status := 500, body := submitFailJson, db := db
        cursorAcquired := true, cursorClosed := false, logged := true }
    else if f.fails 2 then
      { status := 500, body := submitFailJson, db := db
        cursorAcquired := true, cursorClosed := false, logged := true }
    else
      { status := 200, body := submitSuccessJson m, db := sqlInsert db m
        cursorAcquired := true, cursorClosed := true, logged := false }

/-- Handler for `POST /submit` (`submit` in `app.py`).  `request.is_json` dispatches
between `request.json.get('new_message')` and
`request.form.get('new_message')`; a declared-JSON but unparseable body
makes `request.json` raise inside the `try`, so it is caught by the same
`except Exception` as store failures and answered with the generic 500
body, before any cursor is acquired. -/
def submit (db : DB) (body : ReqBody) (f : Fault) :
    Outcome (List (String × String)) :=
  match body with
  | .badJson =>
    { status := 500, body := submitFailJson, db := db
      cursorAcquired := false, cursorClosed := false, logged := true }
  | .jsonBody fs => submitWithMsg db (getField fs "new_message") f
  | .formBody fs => submitWithMsg db (getField fs "new_message") f

/-- Body `{'status': 'healthy', 'database': 'connected'}`. -/
def healthyJson : List (String × String) :=
  [("status", "healthy"), ("database", "connected")]

/-- Body `{'status': 'unhealthy', 'database': 'disconnected'}`. -/
def unhealthyJson : List (String × String) :=
  [("status", "unhealthy"), ("database", "disconnected")]

/-- Handler for `GET /health` (`health` in `app.py`).  Store calls: step 0
`mysql.connection.cursor()`, step 1 `cur.execute('SELECT 1')`; then
`cur.close()` and the 200 healthy body.  The bare `except:` answers any
exception with the 500 unhealthy body (and does not log). -/
def health (db : DB) (f : Fault) : Outcome (List (String × String)) :=
  if f.fails 0 then
    { status := 500, body := unhealthyJson, db := db
      cursorAcquired := false, cursorClosed := false, logged := false }
  else if f.fails 1 then
    { status := 500, body := unhealthyJson, db := db
      cursorAcquired := true, cursorClosed := false, logged := false }
  else
    { status := 200, body := healthyJson, db := db
      cursorAcquired := true, cursorClosed := true, logged := false }

/-- The statement `CREATE TABLE IF NOT EXISTS messages (...)`: creates the table with its
three columns when absent, otherwise leaves the store untouched (existing
rows and columns are preserved). -/
def sqlCreateTableIfNotExists (db : DB) : DB :=
  match db.tableCols with
  | some _ => db
  | none => { db with tableCols := some messagesCols }

/-- Startup initialization `init_db` in `app.py`: store calls step 0 `cursor()`, step 1
`cur.execute(CREATE TABLE IF NOT EXISTS ...)`, step 2 `commit()`; any
exception is caught, logged and swallowed (the store is left as it was and
the process continues).  Returns the resulting store state and whether an
error was logged. -/
def init_db (db : DB) (f : Fault) : DB × Bool :=
  if f.hits 3 then (db, true) else (sqlCreateTableIfNotExists db, false)

/-- A store state right after a successful `init_db` on a fresh store. -/
def readyDB : DB := (init_db emptyDB .ok).1

/-- Reachable store states under normal clock behavior: the `messages`
table exists with its schema columns, `created_at` is strictly increasing
along insertion order, and every stored timestamp is in the past of the
server clock. -/
def WF (db : DB) : Prop :=
  db.tableCols = some messagesCols ∧
  db.rows.Pairwise (fun a b => a.createdAt < b.createdAt) ∧
  ∀ r ∈ db.rows, r.createdAt < db.clock

/-- Folding `submit`'s insert over a list of messages. -/
def insertAll (db : DB) (msgs : List String) : DB :=
  msgs.foldl sqlInsert db

/-- Concrete batch of 60 distinct messages. -/
def msgs60 : List String := (List.range 60).map toString

/-! ## Lemmas about the `ORDER BY created_at DESC` sort -/

theorem orderedInsert_eq_append (a : Row) (l : List Row)
    (h : ∀ b ∈ l, a.createdAt < b.createdAt) :
    l.orderedInsert createdDesc a = l ++ [a] := by
  induction l with
  | nil => rfl
  | cons b t ih =>
    have hb : ¬ createdDesc a b := by
      have := h b (List.mem_cons_self b t)
      simp only [createdDesc]
      omega
    simp only [List.orderedInsert, if_neg hb, List.cons_append]
    rw [ih (fun c hc => h c (List.mem_cons_of_mem _ hc))]

/-- On rows with strictly increasing timestamps (insertion order), sorting
by `created_at` descending reverses the list. -/
theorem insertionSort_eq_reverse (l : List Row)
    (h : l.Pairwise (fun a b => a.createdAt < b.createdAt)) :
    l.insertionSort createdDesc = l.reverse := by
  induction l with
  | nil => rfl
  | cons a t ih =>
    rw [List.insertionSort, ih ((List.pairwise_cons.mp h).2),
      orderedInsert_eq_append a t.reverse
        (fun b hb => (List.pairwise_cons.mp h).1 b (List.mem_reverse.mp hb)),
      List.reverse_cons]

/-- Under the strictly-increasing-timestamp invariant, the `SELECT`
returns the messages of the last 50 inserted rows, newest first. -/
theorem sqlSelectRecent_eq (db : DB)
    (h : db.rows.Pairwise (fun a b => a.createdAt < b.createdAt)) :
    sqlSelectRecent db = (db.rows.reverse.take 50).map Row.message := by
  unfold sqlSelectRecent selectedRows
  rw [insertionSort_eq_reverse db.rows h]

theorem take_reverse_of_le {α : Type} (l : List α) (n : Nat) (h : n ≤ l.length) :
    l.reverse.take n = (l.drop (l.length - n)).reverse := by
  rw [List.reverse_drop, Nat.sub_sub_self h]

/-! ## Lemmas about the store invariant -/

theorem WF_sqlInsert (db : DB) (m : String) (h : WF db) : WF (sqlInsert db m) := by
  obtain ⟨ht, hp, hc⟩ := h
  refine ⟨ht, ?_, ?_⟩
  · simp only [sqlInsert]
    rw [List.pairwise_append]
    refine ⟨hp, List.pairwise_singleton _ _, ?_⟩
    intro a ha b hb
    rw [List.mem_singleton] at hb
    subst hb
    exact hc a ha
  · intro r hr
    simp only [sqlInsert, List.mem_append, List.mem_singleton] at hr
    rcases hr with hr | hr
    · exact Nat.lt_trans (hc r hr) (Nat.lt_succ_self _)
    · subst hr
      exact Nat.lt_succ_self _

theorem WF_insertAll (db : DB) (msgs : List String) (h : WF db) :
    WF (insertAll db msgs) := by
  induction msgs generalizing db with
  | nil => exact h
  | cons m t ih => exact ih (sqlInsert db m) (WF_sqlInsert db m h)

theorem insertAll_messages (db : DB) (msgs : List String) :
    (insertAll db msgs).rows.map Row.message = db.rows.map Row.message ++ msgs := by
  induction msgs generalizing db with
  | nil => simp [insertAll]
  | cons m t ih =>
    show (insertAll (sqlInsert db m) t).rows.map Row.message = _
    rw [ih (sqlInsert db m)]
    simp [sqlInsert]

theorem WF_readyDB : WF readyDB := by
  refine ⟨rfl, List.Pairwise.nil, ?_⟩
  intro r hr
  exact absurd hr (List.not_mem_nil r)

/-! ## Characterization of the submit handler -/

theorem submit_eq_withMsg (db : DB) (f : Fault) (fs : List (String × String))
    (body : ReqBody) (hbody : body = .jsonBody fs ∨ body = .formBody fs) :
    submit db body f = submitWithMsg db (getField fs "new_message") f := by
  rcases hbody with h | h <;> subst h <;> rfl

theorem submitWithMsg_missing (db : DB) (f : Fault) (m? : Option String)
    (h : m? = none ∨ m? = some "") :
    submitWithMsg db m? f =
      { status := 400, body := submitMissingJson, db := db
        cursorAcquired := false, cursorClosed := false, logged := false } := by
  rcases h with h | h <;> subst h <;> simp [submitWithMsg]

theorem submitWithMsg_valid_ok (db : DB) (m : String) (hm : m ≠ "") :
    submitWithMsg db (some m) .ok =
      { status := 200, body := submitSuccessJson m, db := sqlInsert db m
        cursorAcquired := true, cursorClosed := true, logged := false } := by
  simp [submitWithMsg, Fault.fails, hm]

theorem submitWithMsg_valid_fault (db : DB) (m : String) (f : Fault)
    (hm : m ≠ "") (hf : f.hits 3 = true) :
    (submitWithMsg db (some m) f).status = 500 ∧
    (submitWithMsg db (some m) f).body = submitFailJson ∧
    (submitWithMsg db (some m) f).db = db ∧
    (submitWithMsg db (some m) f).logged = true ∧
    (submitWithMsg db (some m) f).cursorClosed = false := by
  rcases f with _ | n
  · simp [Fault.hits] at hf
  · have hn : n < 3 := by simpa [Fault.hits] using hf
    interval_cases n <;> simp [submitWithMsg, Fault.fails, hm]

/-! ## Claims -/

/-- C1: for every store state (reachable, i.e. well-formed), submitting a
message with `new_message = "hello"` and then invoking the list operation
returns a list whose first (most recent) element's message equals
`"hello"`. -/
theorem c1_submit_then_list (db : DB) (h : WF db) :
    ((index (submit db (.jsonBody [("new_message", "hello")]) .ok).db .ok).body).head? =
      some "hello" := by
  have hs : submit db (.jsonBody [("new_message", "hello")]) .ok =
      submitWithMsg db (some "hello") .ok :=
    submit_eq_withMsg db .ok [("new_message", "hello")] _ (Or.inl rfl)
  rw [hs, submitWithMsg_valid_ok db "hello" (by decide)]
  show (index (sqlInsert db "hello") .ok).body.head? = some "hello"
  have h2 := WF_sqlInsert db "hello" h
  simp only [index, Fault.fails]
  rw [if_neg (by simp), if_neg (by simp), if_neg (by simp)]
  rw [sqlSelectRecent_eq _ h2.2.1]
  simp [sqlInsert, List.take_succ_cons]

/-- C1 witness: the property at the fresh initialized store. -/
theorem c1_witness :
    ((index (submit readyDB (.jsonBody [("new_message", "hello")]) .ok).db .ok).body).head? =
      some "hello" :=
  c1_submit_then_list readyDB WF_readyDB

/-- C2: the list operation returns at most 50 messages, ordered by
`created_at` descending; after inserting 60 distinct messages into a
well-formed store, it returns exactly the 50 most recently inserted
messages, in descending recency order (the reverse of the last 50
inserts). -/
theorem c2_list_limit_order (db : DB) (msgs : List String)
    (hwf : WF db) (hlen : msgs.length = 60) :
    (index db .ok).body.length ≤ 50 ∧
    List.Sorted createdDesc (selectedRows db) ∧
    (index (insertAll db msgs) .ok).body = (msgs.drop 10).reverse ∧
    ((msgs.drop 10).reverse).length = 50 := by
  have hbody : ∀ d : DB, (index d .ok).body = sqlSelectRecent d := by
    intro d
    simp only [index, Fault.fails]
    rw [if_neg (by simp), if_neg (by simp), if_neg (by simp)]
  refine ⟨?_, ?_, ?_, ?_⟩
  · rw [hbody db]
    unfold sqlSelectRecent selectedRows
    simp only [List.length_map, List.length_take]
    exact min_le_left _ _
  · exact List.Pairwise.sublist (List.take_sublist _ _)
      (List.sorted_insertionSort createdDesc db.rows)
  · have hwf2 := WF_insertAll db msgs hwf
    rw [hbody, sqlSelectRecent_eq _ hwf2.2.1, List.map_take, List.map_reverse,
      insertAll_messages db msgs, List.reverse_append,
      List.take_append_of_le_length (by rw [List.length_reverse]; omega),
      take_reverse_of_le msgs 50 (by omega), hlen]
  · simp [hlen]

/-- C2 witness: 60 concrete distinct messages inserted into the fresh
initialized store. -/
theorem c2_witness :
    (index readyDB .ok).body.length ≤ 50 ∧
    List.Sorted createdDesc (selectedRows readyDB) ∧
    (index (insertAll readyDB msgs60) .ok).body = (msgs60.drop 10).reverse ∧
    ((msgs60.drop 10).reverse).length = 50 :=
  c2_list_limit_order readyDB msgs60 WF_readyDB (by simp [msgs60])

/-- C3: a submit request whose `new_message` field is absent or empty is
answered with HTTP 400 and the error body, acquires no cursor (no store
access), leaves the store unchanged, and changes the listing count by
nothing. -/
theorem c3_missing_message (db : DB) (f : Fault) (fs : List (String × String))
    (body : ReqBody) (hbody : body = .jsonBody fs ∨ body = .formBody fs)
    (hmsg : getField fs "new_message" = none ∨ getField fs "new_message" = some "") :
    (submit db body f).status = 400 ∧
    (submit db body f).body = submitMissingJson ∧
    (submit db body f).cursorAcquired = false ∧
    (submit db body f).db = db ∧
    (index (submit db body f).db .ok).body.length = (index db .ok).body.length := by
  rw [submit_eq_withMsg db f fs body hbody, submitWithMsg_missing db f _ hmsg]
  exact ⟨rfl, rfl, rfl, rfl, rfl⟩

/-- C3 witness: a JSON body with no `new_message` field. -/
theorem c3_witness :
    (submit readyDB (.jsonBody []) .ok).status = 400 ∧
    (submit readyDB (.jsonBody []) .ok).body = submitMissingJson ∧
    (submit readyDB (.jsonBody []) .ok).cursorAcquired = false ∧
    (submit readyDB (.jsonBody []) .ok).db = readyDB ∧
    (index (submit readyDB (.jsonBody []) .ok).db .ok).body.length =
      (index readyDB .ok).body.length :=
  c3_missing_message readyDB .ok [] (.jsonBody []) (Or.inl rfl) (Or.inl rfl)

/-- C4: a submit request carrying a present, non-empty `new_message`
against a fault-free store inserts exactly one new row — with
server-assigned `id` (the AUTO_INCREMENT counter) and `created_at` (the
server clock) — and responds HTTP 200 with the echoed message and status
`success`. -/
theorem c4_submit_success (db : DB) (fs : List (String × String))
    (body : ReqBody) (m : String)
    (hbody : body = .jsonBody fs ∨ body = .formBody fs)
    (hmsg : getField fs "new_message" = some m) (hm : m ≠ "") :
    (submit db body .ok).status = 200 ∧
    (submit db body .ok).body = submitSuccessJson m ∧
    (submit db body .ok).db.rows = db.rows ++ [⟨db.nextId, m, db.clock⟩] ∧
    (submit db body .ok).db.nextId = db.nextId + 1 := by
  rw [submit_eq_withMsg db .ok fs body hbody, hmsg, submitWithMsg_valid_ok db m hm]
  exact ⟨rfl, rfl, rfl, rfl⟩

/-- C4 witness: submitting the concrete message `"hi"`. -/
theorem c4_witness :
    (submit readyDB (.jsonBody [("new_message", "hi")]) .ok).status = 200 ∧
    (submit readyDB (.jsonBody [("new_message", "hi")]) .ok).body = submitSuccessJson "hi" ∧
    (submit readyDB (.jsonBody [("new_message", "hi")]) .ok).db.rows =
      readyDB.rows ++ [⟨readyDB.nextId, "hi", readyDB.clock⟩] ∧
    (submit readyDB (.jsonBody [("new_message", "hi")]) .ok).db.nextId =
      readyDB.nextId + 1 :=
  c4_submit_success readyDB [("new_message", "hi")] (.jsonBody [("new_message", "hi")])
    "hi" (Or.inl rfl) rfl (by decide)

/-- C5 counterexample: when the `SELECT` of the list handler raises (fault
at store call 1), the handler has acquired a cursor, takes the failure
path (logs the error), and does not release the cursor — refuting the
claim that the cursor is released on the failure path as well. -/
theorem c5_counterexample :
    (index readyDB (.atStep 1)).cursorAcquired = true ∧
    (index readyDB (.atStep 1)).logged = true ∧
    (index readyDB (.atStep 1)).cursorClosed = false := by
  decide

/-- Field-by-field characterization of the list handler under an
arbitrary fault. -/
theorem index_fields (db : DB) (f : Fault) :
    (index db f).status = 200 ∧
    (index db f).db = db ∧
    (index db f).body = (if f.hits 3 then [] else sqlSelectRecent db) ∧
    (index db f).logged = f.hits 3 ∧
    (index db f).cursorClosed = !f.hits 3 ∧
    (index db f).cursorAcquired = !f.fails 0 := by
  rcases f with _ | n
  · simp [index, Fault.fails, Fault.hits]
  · by_cases h0 : n = 0
    · subst h0; simp [index, Fault.fails, Fault.hits]
    · by_cases h1 : n = 1
      · subst h1; simp [index, Fault.fails, Fault.hits]
      · by_cases h2 : n = 2
        · subst h2; simp [index, Fault.fails, Fault.hits]
        · have hn : ¬ n < 3 := by omega
          simp [index, Fault.fails, Fault.hits, h0, h1, h2, hn]

/-- Field-by-field characterization of the health handler under an
arbitrary fault. -/
theorem health_fields (db : DB) (f : Fault) :
    (health db f).status = (if f.hits 2 then 500 else 200) ∧
    (health db f).body = (if f.hits 2 then unhealthyJson else healthyJson) ∧
    (health db f).db = db ∧
    (health db f).logged = false ∧
    (health db f).cursorClosed = !f.hits 2 ∧
    (health db f).cursorAcquired = !f.fails 0 := by
  rcases f with _ | n
  · simp [health, Fault.fails, Fault.hits]
  · by_cases h0 : n = 0
    · subst h0; simp [health, Fault.fails, Fault.hits]
    · by_cases h1 : n = 1
      · subst h1; simp [health, Fault.fails, Fault.hits]
      · have hn : ¬ n < 2 := by omega
        simp [health, Fault.fails, Fault.hits, h0, h1, hn]

/-- Field-by-field characterization of the submit tail on a present,
non-empty message under an arbitrary fault. -/
theorem submitWithMsg_fields (db : DB) (m : String) (f : Fault) (hm : m ≠ "") :
    (submitWithMsg db (some m) f).status = (if f.hits 3 then 500 else 200) ∧
    (submitWithMsg db (some m) f).db = (if f.hits 3 then db else sqlInsert db m) ∧
    (submitWithMsg db (some m) f).logged = f.hits 3 ∧
    (submitWithMsg db (some m) f).cursorClosed = !f.hits 3 ∧
    (submitWithMsg db (some m) f).cursorAcquired = !f.fails 0 := by
  rcases f with _ | n
  · simp [submitWithMsg, Fault.fails, Fault.hits, hm]
  · by_cases h0 : n = 0
    · subst h0; simp [submitWithMsg, Fault.fails, Fault.hits, hm]
    · by_cases h1 : n = 1
      · subst h1; simp [submitWithMsg, Fault.fails, Fault.hits, hm]
      · by_cases h2 : n = 2
        · subst h2; simp [submitWithMsg, Fault.fails, Fault.hits, hm]
        · have hn : ¬ n < 3 := by omega
          simp [submitWithMsg, Fault.fails, Fault.hits, hm, h0, h1, h2, hn]

/-- A submit invocation that answers 500 never closed its cursor. -/
theorem submitWithMsg_500_not_closed (db : DB) (m? : Option String) (f : Fault)
    (h : (submitWithMsg db m? f).status = 500) :
    (submitWithMsg db m? f).cursorClosed = false := by
  rcases m? with _ | m
  · rw [submitWithMsg_missing db f none (Or.inl rfl)] at h
    simp at h
  · by_cases hm : m = ""
    · subst hm
      rw [submitWithMsg_missing db f (some "") (Or.inr rfl)] at h
      simp at h
    · obtain ⟨hs, _, _, hc, _⟩ := submitWithMsg_fields db m f hm
      rw [hs] at h
      by_cases hh : f.hits 3 = true
      · rw [hc, hh]
        rfl
      · rw [if_neg hh] at h
        simp at h

/-- A fault-free submit invocation that acquired a cursor closed it. -/
theorem submitWithMsg_ok_closed (db : DB) (m? : Option String)
    (h : (submitWithMsg db m? .ok).cursorAcquired = true) :
    (submitWithMsg db m? .ok).cursorClosed = true := by
  rcases m? with _ | m
  · rw [submitWithMsg_missing db .ok none (Or.inl rfl)] at h
    simp at h
  · by_cases hm : m = ""
    · subst hm
      rw [submitWithMsg_missing db .ok (some "") (Or.inr rfl)] at h
      simp at h
    · rw [submitWithMsg_valid_ok db m hm]

/-- C5 (amended): each handler closes its cursor at the end of the
success path; on a failure path the cursor (when one was acquired) is
never closed — the `except` branches contain no release. -/
theorem c5_cursor_release (db : DB) (body : ReqBody) (f : Fault) :
    ((index db .ok).cursorAcquired = true ∧ (index db .ok).cursorClosed = true) ∧
    ((health db .ok).cursorAcquired = true ∧ (health db .ok).cursorClosed = true) ∧
    ((submit db body .ok).cursorAcquired = true →
      (submit db body .ok).cursorClosed = true) ∧
    ((index db f).logged = true → (index db f).cursorClosed = false) ∧
    ((health db f).status = 500 → (health db f).cursorClosed = false) ∧
    ((submit db body f).status = 500 → (submit db body f).cursorClosed = false) := by
  refine ⟨⟨rfl, rfl⟩, ⟨rfl, rfl⟩, ?_, ?_, ?_, ?_⟩
  · rcases body with fs | fs | _
    · exact fun h => submitWithMsg_ok_closed db (getField fs "new_message") h
    · exact fun h => submitWithMsg_ok_closed db (getField fs "new_message") h
    · intro h
      simp [submit] at h
  · intro h
    obtain ⟨_, _, _, hlog, hc, _⟩ := index_fields db f
    rw [hlog] at h
    rw [hc, h]
    rfl
  · intro h
    obtain ⟨hs, _, _, _, hc, _⟩ := health_fields db f
    rw [hs] at h
    by_cases hh : f.hits 2 = true
    · rw [hc, hh]
      rfl
    · rw [if_neg hh] at h
      simp at h
  · rcases body with fs | fs | _
    · exact fun h => submitWithMsg_500_not_closed db (getField fs "new_message") f h
    · exact fun h => submitWithMsg_500_not_closed db (getField fs "new_message") f h
    · exact fun _ => rfl

/-- C5 witness for the amended claim: the fresh store's list handler
closes its cursor on success and leaks it when the `SELECT` raises. -/
theorem c5_witness :
    (index readyDB .ok).cursorClosed = true ∧
    (index readyDB (.atStep 1)).cursorClosed = false :=
  ⟨(c5_cursor_release readyDB .badJson .ok).1.2,
   (c5_cursor_release readyDB .badJson (.atStep 1)).2.2.2.1 (by decide)⟩

/-- C6: any store error during the list operation does not fail the
request: the page is rendered with an empty list, HTTP 200, and the error
is logged. -/
theorem c6_list_store_error (db : DB) (f : Fault) (hf : f.hits 3 = true) :
    (index db f).status = 200 ∧
    (index db f).body = [] ∧
    (index db f).logged = true := by
  obtain ⟨hs, _, hb, hlog, _, _⟩ := index_fields db f
  refine ⟨hs, ?_, ?_⟩
  · rw [hb, if_pos hf]
  · rw [hlog, hf]

/-- C6 witness: cursor acquisition failing on the fresh store. -/
theorem c6_witness :
    (index readyDB (.atStep 0)).status = 200 ∧
    (index readyDB (.atStep 0)).body = [] ∧
    (index readyDB (.atStep 0)).logged = true :=
  c6_list_store_error readyDB (.atStep 0) (by decide)

/-- C7: the health operation answers HTTP 200 with the
healthy/connected body exactly when its store calls (cursor acquisition
and `SELECT 1`) raise no exception, and HTTP 500 with the
unhealthy/disconnected body on any exception, with no distinction between
error kinds; the store is never modified. -/
theorem c7_health_characterization (db : DB) (f : Fault) :
    (health db f).status = (if f.hits 2 then 500 else 200) ∧
    (health db f).body = (if f.hits 2 then unhealthyJson else healthyJson) ∧
    (health db f).db = db := by
  obtain ⟨hs, hb, hdb, _, _, _⟩ := health_fields db f
  exact ⟨hs, hb, hdb⟩

/-- C8: a store error during the insert of a valid submit request is
answered HTTP 500 with the fixed generic error body (the underlying
exception is logged, never echoed to the caller), and the store is left
unchanged. -/
theorem c8_submit_store_error (db : DB) (f : Fault) (fs : List (String × String))
    (body : ReqBody) (m : String)
    (hbody : body = .jsonBody fs ∨ body = .formBody fs)
    (hmsg : getField fs "new_message" = some m) (hm : m ≠ "")
    (hf : f.hits 3 = true) :
    (submit db body f).status = 500 ∧
    (submit db body f).body = submitFailJson ∧
    (submit db body f).logged = true ∧
    (submit db body f).db = db := by
  rw [submit_eq_withMsg db f fs body hbody, hmsg]
  obtain ⟨h1, h2, h3, h4, _⟩ := submitWithMsg_valid_fault db m f hm hf
  exact ⟨h1, h2, h4, h3⟩

/-- C8 witness: the `INSERT` raising on the fresh store. -/
theorem c8_witness :
    (submit readyDB (.jsonBody [("new_message", "hi")]) (.atStep 1)).status = 500 ∧
    (submit readyDB (.jsonBody [("new_message", "hi")]) (.atStep 1)).body = submitFailJson ∧
    (submit readyDB (.jsonBody [("new_message", "hi")]) (.atStep 1)).logged = true ∧
    (submit readyDB (.jsonBody [("new_message", "hi")]) (.atStep 1)).db = readyDB :=
  c8_submit_store_error readyDB (.atStep 1) [("new_message", "hi")]
    (.jsonBody [("new_message", "hi")]) "hi" (Or.inl rfl) rfl (by decide) (by decide)

/-- C9: schema initialization is idempotent — running `init_db` twice
leaves the same single `messages` table (same state, hence same columns)
as running it once, and drops no rows. -/
theorem c9_init_db_idempotent (db : DB) :
    (init_db (init_db db .ok).1 .ok).1 = (init_db db .ok).1 ∧
    ((init_db db .ok).1.tableCols).isSome = true ∧
    (init_db db .ok).1.rows = db.rows ∧
    (init_db (init_db db .ok).1 .ok).1.rows = db.rows := by
  have hok : ∀ d : DB, (init_db d .ok).1 = sqlCreateTableIfNotExists d := fun d => rfl
  simp only [hok]
  cases h : db.tableCols with
  | some cols => simp [sqlCreateTableIfNotExists, h]
  | none => simp [sqlCreateTableIfNotExists, h]

/-- C10: a `POST /submit` declaring a JSON content type whose body does
not parse is answered by the generic HTTP 500 error (the parse exception
is caught by the same `except` as store failures), with no cursor
acquired and no row created. -/
theorem c10_bad_json_500 (db : DB) (f : Fault) :
    (submit db .badJson f).status = 500 ∧
    (submit db .badJson f).body = submitFailJson ∧
    (submit db .badJson f).db = db ∧
    (submit db .badJson f).cursorAcquired = false ∧
    (submit db .badJson f).logged = true :=
  ⟨rfl, rfl, rfl, rfl, rfl⟩

end Guestbook
